import Mathlib

/-!
Verification of the beaconv1 pool RPC gateway (`beacon-chain/rpc/beaconv1/pool.go`).

The gateway orchestrates external collaborators (head-state provider, object
validators, pending pools, broadcaster, wire-format migration functions).  We
embed each handler as a pure Lean function taking the collaborator behaviour
(a `Server` record of response functions), the current pool contents, and the
request; it returns the gRPC-style result, the updated pool contents, and a
trace of every collaborator call made, in call order.  Claims about side
effects ("no broadcast call", "insert before broadcast", "same snapshot for
validation and insertion") become statements about this trace.
-/

namespace Beaconv1

/-- Wire-format (eth/v1) attester slashing.  The gateway treats it as opaque:
it is only translated and forwarded, never inspected. -/
structure AttesterSlashing where
  payload : Nat
deriving DecidableEq

/-- Internal (v1alpha1) attester slashing, as produced by migration. -/
structure AttesterSlashingAlpha where
  payload : Nat
deriving DecidableEq

/-- Wire-format (eth/v1) proposer slashing, opaque to the gateway. -/
structure ProposerSlashing where
  payload : Nat
deriving DecidableEq

/-- Internal (v1alpha1) proposer slashing. -/
structure ProposerSlashingAlpha where
  payload : Nat
deriving DecidableEq

/-- The exit message inside a signed voluntary exit.  The gateway reads
`req.Exit.ValidatorIndex`, so that field is modelled explicitly. -/
structure VoluntaryExit where
  validatorIndex : Nat
  epoch : Nat
deriving DecidableEq

/-- Wire-format (eth/v1) signed voluntary exit. -/
structure SignedVoluntaryExit where
  exit : VoluntaryExit
  signature : Nat
deriving DecidableEq

/-- Internal (v1alpha1) signed voluntary exit. -/
structure SignedVoluntaryExitAlpha where
  payload : Nat
deriving DecidableEq

/-- Fork data of a beacon state; opaque to the gateway, which only passes
`headState.Fork()` through to the exit validator. -/
structure Fork where
  data : Nat
deriving DecidableEq

/-- A validator registry record, opaque to the gateway, which only passes the
looked-up record through to the exit validator. -/
structure ValidatorRecord where
  payload : Nat
deriving DecidableEq

/-- The head-state snapshot.  The gateway reads the validator registry (by
index), `Slot()`, `Fork()` and `GenesisValidatorRoot()`. -/
structure BeaconState where
  validators : List ValidatorRecord
  slot : Nat
  fork : Fork
  genesisValidatorsRoot : Nat
deriving DecidableEq

/-- Modelled from the spec: `ValidatorAtIndexReadOnly` lives in the external
head-state package (not under the gateway source).  Per §4.3 a missing or
out-of-range index is an error distinct from a validation failure. -/
def BeaconState.validatorAtIndexReadOnly (st : BeaconState) (idx : Nat) :
    Except String ValidatorRecord :=
  match st.validators.get? idx with
  | some v => .ok v
  | none => .error "index out of range"

/-- A wire-format message handed to `Broadcaster.Broadcast`. -/
inductive WireMsg where
  | attSlashing (s : AttesterSlashing)
  | propSlashing (s : ProposerSlashing)
  | exit (e : SignedVoluntaryExit)
deriving DecidableEq

/-- One collaborator call made by a handler, with the arguments it passed. -/
inductive Event where
  | headStateFetch
  | validatorLookup (idx : Nat)
  | migrateAttSlashingToAlpha (s : AttesterSlashing)
  | migratePropSlashingToAlpha (s : ProposerSlashing)
  | migrateExitToAlpha (e : SignedVoluntaryExit)
  | verifyAttSlashing (st : BeaconState) (s : AttesterSlashingAlpha)
  | verifyPropSlashing (st : BeaconState) (s : ProposerSlashingAlpha)
  | verifyExit (v : ValidatorRecord) (slot : Nat) (f : Fork)
      (e : SignedVoluntaryExitAlpha) (root : Nat)
  | insertAttSlashing (st : BeaconState) (s : AttesterSlashingAlpha)
  | insertPropSlashing (st : BeaconState) (s : ProposerSlashingAlpha)
  | insertExit (st : BeaconState) (e : SignedVoluntaryExitAlpha)
  | pendingAttSlashings (st : BeaconState) (unlimited : Bool)
  | pendingPropSlashings (st : BeaconState) (unlimited : Bool)
  | pendingExits (st : BeaconState) (slot : Nat) (unlimited : Bool)
  | broadcastCall (m : WireMsg)
deriving DecidableEq

/-- Is this event a head-state fetch? -/
def Event.isFetch : Event → Bool
  | .headStateFetch => true
  | _ => false

/-- Is this event a validator call (any kind)? -/
def Event.isVerify : Event → Bool
  | .verifyAttSlashing _ _ => true
  | .verifyPropSlashing _ _ => true
  | .verifyExit _ _ _ _ _ => true
  | _ => false

/-- Is this event a pool-insertion call (any kind)? -/
def Event.isInsert : Event → Bool
  | .insertAttSlashing _ _ => true
  | .insertPropSlashing _ _ => true
  | .insertExit _ _ => true
  | _ => false

/-- Is this event a pool-listing query (any kind)? -/
def Event.isPending : Event → Bool
  | .pendingAttSlashings _ _ => true
  | .pendingPropSlashings _ _ => true
  | .pendingExits _ _ _ => true
  | _ => false

/-- Is this event a broadcast call? -/
def Event.isBroadcast : Event → Bool
  | .broadcastCall _ => true
  | _ => false

/-- gRPC status code attached to an error (every handler here uses
`codes.Internal`). -/
inductive Code where
  | internal
deriving DecidableEq

/-- A `status.Errorf` result. -/
structure GrpcError where
  code : Code
  msg : String
deriving DecidableEq

/-- True when the result is an error (`err != nil` in the source). -/
def exceptFailed {ε α : Type} : Except ε α → Bool
  | .error _ => true
  | .ok _ => false

/-- Modelled from the spec: the kind-specific pending pools are external
collaborators (not under the gateway source).  Their logical contents are the
admitted objects of each kind, in admission order. -/
structure PoolState where
  attesterSlashings : List AttesterSlashingAlpha
  proposerSlashings : List ProposerSlashingAlpha
  voluntaryExits : List SignedVoluntaryExitAlpha
deriving DecidableEq

/-- Modelled from the spec: a successful pool insertion stores the object;
insertion is idempotent, so an already-present object is a no-op. -/
def PoolState.storeAttSlashing (p : PoolState) (s : AttesterSlashingAlpha) : PoolState :=
  if s ∈ p.attesterSlashings then p
  else { p with attesterSlashings := p.attesterSlashings ++ [s] }

/-- Modelled from the spec: see `PoolState.storeAttSlashing`. -/
def PoolState.storePropSlashing (p : PoolState) (s : ProposerSlashingAlpha) : PoolState :=
  if s ∈ p.proposerSlashings then p
  else { p with proposerSlashings := p.proposerSlashings ++ [s] }

/-- Modelled from the spec: see `PoolState.storeAttSlashing`. -/
def PoolState.storeExit (p : PoolState) (e : SignedVoluntaryExitAlpha) : PoolState :=
  if e ∈ p.voluntaryExits then p
  else { p with voluntaryExits := p.voluntaryExits ++ [e] }

/-- Modelled from the spec: `PendingAttesterSlashings(ctx, state, unlimited)`
with `unlimited = true` returns all currently pending objects of the kind, in
the pool's iteration (admission) order. -/
def PoolState.pendingAttesterSlashings (p : PoolState) (_st : BeaconState)
    (_unlimited : Bool) : List AttesterSlashingAlpha :=
  p.attesterSlashings

/-- Modelled from the spec: see `PoolState.pendingAttesterSlashings`. -/
def PoolState.pendingProposerSlashings (p : PoolState) (_st : BeaconState)
    (_unlimited : Bool) : List ProposerSlashingAlpha :=
  p.proposerSlashings

/-- Modelled from the spec: `PendingExits(state, slot, unlimited)`; see
`PoolState.pendingAttesterSlashings`. -/
def PoolState.pendingExits (p : PoolState) (_st : BeaconState) (_slot : Nat)
    (_unlimited : Bool) : List SignedVoluntaryExitAlpha :=
  p.voluntaryExits

/-- The gateway's collaborators, as response functions: the head-state
provider's answer for this request, the validators' verdicts, the pools'
insert outcomes, the broadcaster's outcome, the migration translations, and
the process-wide feature flag read at request time. -/
structure Server where
  headState : Except String BeaconState
  verifyAttesterSlashing : BeaconState → AttesterSlashingAlpha → Except String Unit
  verifyProposerSlashing : BeaconState → ProposerSlashingAlpha → Except String Unit
  verifyExitAndSignature : ValidatorRecord → Nat → Fork → SignedVoluntaryExitAlpha →
    Nat → Except String Unit
  insertAttesterSlashingOutcome : BeaconState → AttesterSlashingAlpha → Except String Unit
  insertProposerSlashingOutcome : BeaconState → ProposerSlashingAlpha → Except String Unit
  broadcastOutcome : WireMsg → Except String Unit
  v1AttSlashingToV1Alpha1 : AttesterSlashing → AttesterSlashingAlpha
  v1Alpha1AttSlashingToV1 : AttesterSlashingAlpha → AttesterSlashing
  v1ProposerSlashingToV1Alpha1 : ProposerSlashing → ProposerSlashingAlpha
  v1Alpha1ProposerSlashingToV1 : ProposerSlashingAlpha → ProposerSlashing
  v1ExitToV1Alpha1 : SignedVoluntaryExit → SignedVoluntaryExitAlpha
  v1Alpha1ExitToV1 : SignedVoluntaryExitAlpha → SignedVoluntaryExit
  disableBroadcastSlashings : Bool

/-- Result, final pool contents, and call trace of one handler invocation. -/
structure OpOutcome (α : Type) where
  result : Except GrpcError α
  pool : PoolState
  trace : List Event

/-- Did the handler return a non-nil error? -/
def OpOutcome.failed {α : Type} (o : OpOutcome α) : Bool :=
  exceptFailed o.result

/-- The `AttesterSlashingsPoolResponse` envelope, `{Data: [...]}`. -/
structure AttesterSlashingsPoolResponse where
  data : List AttesterSlashing
deriving DecidableEq

/-- The `ProposerSlashingPoolResponse` envelope, `{Data: [...]}`. -/
structure ProposerSlashingPoolResponse where
  data : List ProposerSlashing
deriving DecidableEq

/-- The `VoluntaryExitsPoolResponse` envelope, `{Data: [...]}`. -/
structure VoluntaryExitsPoolResponse where
  data : List SignedVoluntaryExit
deriving DecidableEq

/-- Embeds `SubmitAttesterSlashing` (pool.go:53-79): fetch head state, translate the
request to v1alpha1, verify it against the head state, insert it into the
slashings pool with the same head state, then broadcast the original request
unless `DisableBroadcastSlashings` is set. -/
def Server.submitAttesterSlashing (bs : Server) (pool : PoolState)
    (req : AttesterSlashing) : OpOutcome Unit :=
  match bs.headState with
  | .error e =>
    { result := .error ⟨.internal, "Could not get head state: " ++ e⟩,
      pool := pool, trace := [.headStateFetch] }
  | .ok headState =>
    let alphaSlashing := bs.v1AttSlashingToV1Alpha1 req
    match bs.verifyAttesterSlashing headState alphaSlashing with
    | .error e =>
      { result := .error ⟨.internal, "Invalid attester slashing: " ++ e⟩,
        pool := pool,
        trace := [.headStateFetch, .migrateAttSlashingToAlpha req,
          .verifyAttSlashing headState alphaSlashing] }
    | .ok _ =>
      match bs.insertAttesterSlashingOutcome headState alphaSlashing with
      | .error e =>
        { result := .error ⟨.internal,
            "Could not insert attester slashing into pool: " ++ e⟩,
          pool := pool,
          trace := [.headStateFetch, .migrateAttSlashingToAlpha req,
            .verifyAttSlashing headState alphaSlashing,
            .insertAttSlashing headState alphaSlashing] }
      | .ok _ =>
        let pool1 := pool.storeAttSlashing alphaSlashing
        if bs.disableBroadcastSlashings then
          { result := .ok (),
            pool := pool1,
            trace := [.headStateFetch, .migrateAttSlashingToAlpha req,
              .verifyAttSlashing headState alphaSlashing,
              .insertAttSlashing headState alphaSlashing] }
        else
          match bs.broadcastOutcome (.attSlashing req) with
          | .error e =>
            { result := .error ⟨.internal,
                "Could not broadcast slashing object: " ++ e⟩,
              pool := pool1,
              trace := [.headStateFetch, .migrateAttSlashingToAlpha req,
                .verifyAttSlashing headState alphaSlashing,
                .insertAttSlashing headState alphaSlashing,
                .broadcastCall (.attSlashing req)] }
          | .ok _ =>
            { result := .ok (),
              pool := pool1,
              trace := [.headStateFetch, .migrateAttSlashingToAlpha req,
                .verifyAttSlashing headState alphaSlashing,
                .insertAttSlashing headState alphaSlashing,
                .broadcastCall (.attSlashing req)] }

/-- Embeds `SubmitProposerSlashing` (pool.go:105-131): identical pipeline to
`submitAttesterSlashing` on the proposer-slashing kind. -/
def Server.submitProposerSlashing (bs : Server) (pool : PoolState)
    (req : ProposerSlashing) : OpOutcome Unit :=
  match bs.headState with
  | .error e =>
    { result := .error ⟨.internal, "Could not get head state: " ++ e⟩,
      pool := pool, trace := [.headStateFetch] }
  | .ok headState =>
    let alphaSlashing := bs.v1ProposerSlashingToV1Alpha1 req
    match bs.verifyProposerSlashing headState alphaSlashing with
    | .error e =>
      { result := .error ⟨.internal, "Invalid proposer slashing: " ++ e⟩,
        pool := pool,
        trace := [.headStateFetch, .migratePropSlashingToAlpha req,
          .verifyPropSlashing headState alphaSlashing] }
    | .ok _ =>
      match bs.insertProposerSlashingOutcome headState alphaSlashing with
      | .error e =>
        { result := .error ⟨.internal,
            "Could not insert proposer slashing into pool: " ++ e⟩,
          pool := pool,
          trace := [.headStateFetch, .migratePropSlashingToAlpha req,
            .verifyPropSlashing headState alphaSlashing,
            .insertPropSlashing headState alphaSlashing] }
      | .ok _ =>
        let pool1 := pool.storePropSlashing alphaSlashing
        if bs.disableBroadcastSlashings then
          { result := .ok (),
            pool := pool1,
            trace := [.headStateFetch, .migratePropSlashingToAlpha req,
              .verifyPropSlashing headState alphaSlashing,
              .insertPropSlashing headState alphaSlashing] }
        else
          match bs.broadcastOutcome (.propSlashing req) with
          | .error e =>
            { result := .error ⟨.internal,
                "Could not broadcast slashing object: " ++ e⟩,
              pool := pool1,
              trace := [.headStateFetch, .migratePropSlashingToAlpha req,
                .verifyPropSlashing headState alphaSlashing,
                .insertPropSlashing headState alphaSlashing,
                .broadcastCall (.propSlashing req)] }
          | .ok _ =>
            { result := .ok (),
              pool := pool1,
              trace := [.headStateFetch, .migratePropSlashingToAlpha req,
                .verifyPropSlashing headState alphaSlashing,
                .insertPropSlashing headState alphaSlashing,
                .broadcastCall (.propSlashing req)] }

/-- Embeds `SubmitVoluntaryExit` (pool.go:158-183): fetch head state, resolve the
exiting validator by index, translate the request to v1alpha1, verify it
(validator record, slot, fork, genesis validators root drawn from the same
head state), insert into the exit pool (the insert returns no error), then
unconditionally broadcast the original request. -/
def Server.submitVoluntaryExit (bs : Server) (pool : PoolState)
    (req : SignedVoluntaryExit) : OpOutcome Unit :=
  match bs.headState with
  | .error e =>
    { result := .error ⟨.internal, "Could not get head state: " ++ e⟩,
      pool := pool, trace := [.headStateFetch] }
  | .ok headState =>
    match headState.validatorAtIndexReadOnly req.exit.validatorIndex with
    | .error e =>
      { result := .error ⟨.internal, "Could not get exiting validator: " ++ e⟩,
        pool := pool,
        trace := [.headStateFetch, .validatorLookup req.exit.validatorIndex] }
    | .ok validator =>
      let alphaExit := bs.v1ExitToV1Alpha1 req
      match bs.verifyExitAndSignature validator headState.slot headState.fork
          alphaExit headState.genesisValidatorsRoot with
      | .error e =>
        { result := .error ⟨.internal, "Invalid voluntary exit: " ++ e⟩,
          pool := pool,
          trace := [.headStateFetch, .validatorLookup req.exit.validatorIndex,
            .migrateExitToAlpha req,
            .verifyExit validator headState.slot headState.fork alphaExit
              headState.genesisValidatorsRoot] }
      | .ok _ =>
        let pool1 := pool.storeExit alphaExit
        match bs.broadcastOutcome (.exit req) with
        | .error e =>
          { result := .error ⟨.internal,
              "Could not broadcast voluntary exit object: " ++ e⟩,
            pool := pool1,
            trace := [.headStateFetch, .validatorLookup req.exit.validatorIndex,
              .migrateExitToAlpha req,
              .verifyExit validator headState.slot headState.fork alphaExit
                headState.genesisValidatorsRoot,
              .insertExit headState alphaExit,
              .broadcastCall (.exit req)] }
        | .ok _ =>
          { result := .ok (),
            pool := pool1,
            trace := [.headStateFetch, .validatorLookup req.exit.validatorIndex,
              .migrateExitToAlpha req,
              .verifyExit validator headState.slot headState.fork alphaExit
                headState.genesisValidatorsRoot,
              .insertExit headState alphaExit,
              .broadcastCall (.exit req)] }

/-- Embeds `ListPoolAttesterSlashings` (pool.go:31-49): fetch head state, query the
slashings pool unbounded (`unlimited = true`), translate each pending
slashing to v1 in order, wrap in the `Data` envelope. -/
def Server.listPoolAttesterSlashings (bs : Server) (pool : PoolState) :
    OpOutcome AttesterSlashingsPoolResponse :=
  match bs.headState with
  | .error e =>
    { result := .error ⟨.internal, "Could not get head state: " ++ e⟩,
      pool := pool, trace := [.headStateFetch] }
  | .ok headState =>
    let sourceSlashings := pool.pendingAttesterSlashings headState true
    { result := .ok ⟨sourceSlashings.map bs.v1Alpha1AttSlashingToV1⟩,
      pool := pool,
      trace := [.headStateFetch, .pendingAttSlashings headState true] }

/-- Embeds `ListPoolProposerSlashings` (pool.go:83-101): same pipeline on the
proposer-slashing kind. -/
def Server.listPoolProposerSlashings (bs : Server) (pool : PoolState) :
    OpOutcome ProposerSlashingPoolResponse :=
  match bs.headState with
  | .error e =>
    { result := .error ⟨.internal, "Could not get head state: " ++ e⟩,
      pool := pool, trace := [.headStateFetch] }
  | .ok headState =>
    let sourceSlashings := pool.pendingProposerSlashings headState true
    { result := .ok ⟨sourceSlashings.map bs.v1Alpha1ProposerSlashingToV1⟩,
      pool := pool,
      trace := [.headStateFetch, .pendingPropSlashings headState true] }

/-- Embeds `ListPoolVoluntaryExits` (pool.go:135-154): same pipeline on the exit
kind; the pool query also receives `headState.Slot()`. -/
def Server.listPoolVoluntaryExits (bs : Server) (pool : PoolState) :
    OpOutcome VoluntaryExitsPoolResponse :=
  match bs.headState with
  | .error e =>
    { result := .error ⟨.internal, "Could not get head state: " ++ e⟩,
      pool := pool, trace := [.headStateFetch] }
  | .ok headState =>
    let sourceExits := pool.pendingExits headState headState.slot true
    { result := .ok ⟨sourceExits.map bs.v1Alpha1ExitToV1⟩,
      pool := pool,
      trace := [.headStateFetch, .pendingExits headState headState.slot true] }

/-- Every broadcast call in the trace is preceded by a pool-insertion call. -/
def insertPrecedesBroadcast (tr : List Event) : Prop :=
  ∀ i : Fin tr.length, (tr.get i).isBroadcast = true →
    ∃ j : Fin tr.length, (j : Nat) < (i : Nat) ∧ (tr.get j).isInsert = true

/-- A concrete head state for witness runs: three validators, slot 5. -/
def sampleState : BeaconState :=
  { validators := [⟨0⟩, ⟨1⟩, ⟨2⟩], slot := 5, fork := ⟨3⟩, genesisValidatorsRoot := 7 }

/-- Empty pools, for witness runs. -/
def emptyPool : PoolState :=
  { attesterSlashings := [], proposerSlashings := [], voluntaryExits := [] }

/-- Collaborators that all succeed, with broadcasting enabled, for witness
runs.  The migrations copy the opaque payload across versions. -/
def sampleServer : Server where
  headState := .ok sampleState
  verifyAttesterSlashing := fun _ _ => .ok ()
  verifyProposerSlashing := fun _ _ => .ok ()
  verifyExitAndSignature := fun _ _ _ _ _ => .ok ()
  insertAttesterSlashingOutcome := fun _ _ => .ok ()
  insertProposerSlashingOutcome := fun _ _ => .ok ()
  broadcastOutcome := fun _ => .ok ()
  v1AttSlashingToV1Alpha1 := fun s => ⟨s.payload⟩
  v1Alpha1AttSlashingToV1 := fun s => ⟨s.payload⟩
  v1ProposerSlashingToV1Alpha1 := fun s => ⟨s.payload⟩
  v1Alpha1ProposerSlashingToV1 := fun s => ⟨s.payload⟩
  v1ExitToV1Alpha1 := fun e => ⟨e.signature⟩
  v1Alpha1ExitToV1 := fun e => ⟨⟨e.payload, 0⟩, e.payload⟩
  disableBroadcastSlashings := false

/-- Witness wire requests, one per kind. -/
def sampleReqA : AttesterSlashing := ⟨10⟩

/-- See `sampleReqA`. -/
def sampleReqP : ProposerSlashing := ⟨11⟩

/-- See `sampleReqA`; exits validator index 0. -/
def sampleReqE : SignedVoluntaryExit := ⟨⟨0, 2⟩, 12⟩

/-- A witness exit request whose validator index 99 is outside the
three-validator registry of `sampleState`. -/
def sampleReqBadE : SignedVoluntaryExit := ⟨⟨99, 2⟩, 13⟩

/-- Non-empty pools, for witnessing the List operations. -/
def samplePool : PoolState :=
  { attesterSlashings := [⟨20⟩, ⟨21⟩], proposerSlashings := [⟨22⟩],
    voluntaryExits := [⟨23⟩] }

/-- Witness collaborators whose head-state fetch fails. -/
def failStateServer : Server :=
  { sampleServer with headState := .error "no head" }

/-- Witness collaborators whose validators reject every object. -/
def rejectAllServer : Server :=
  { sampleServer with
    verifyAttesterSlashing := fun _ _ => .error "bad att"
    verifyProposerSlashing := fun _ _ => .error "bad prop"
    verifyExitAndSignature := fun _ _ _ _ _ => .error "bad exit" }

/-- Witness collaborators whose slashing-pool insertions fail. -/
def insertFailServer : Server :=
  { sampleServer with
    insertAttesterSlashingOutcome := fun _ _ => .error "pool full"
    insertProposerSlashingOutcome := fun _ _ => .error "pool full" }

/-- Witness collaborators with `DisableBroadcastSlashings` set. -/
def noBroadcastServer : Server :=
  { sampleServer with disableBroadcastSlashings := true }

/-- Witness collaborators whose broadcaster fails. -/
def broadcastFailServer : Server :=
  { sampleServer with broadcastOutcome := fun _ => .error "gossip down" }

/-- C2: when the head-state fetch fails, every one of the six operations
(three Submits, three Lists) returns an error, leaves the pool untouched, and
makes no call to the validator, the pool, or the broadcaster: its whole trace
is the failed fetch. -/
theorem c2_no_head_state_total_failure (bs : Server) (pool : PoolState)
    (e : String) (reqA : AttesterSlashing) (reqP : ProposerSlashing)
    (reqE : SignedVoluntaryExit) (hs : bs.headState = .error e) :
    ((bs.submitAttesterSlashing pool reqA).failed = true ∧
      (bs.submitAttesterSlashing pool reqA).pool = pool ∧
      (bs.submitAttesterSlashing pool reqA).trace = [Event.headStateFetch]) ∧
    ((bs.submitProposerSlashing pool reqP).failed = true ∧
      (bs.submitProposerSlashing pool reqP).pool = pool ∧
      (bs.submitProposerSlashing pool reqP).trace = [Event.headStateFetch]) ∧
    ((bs.submitVoluntaryExit pool reqE).failed = true ∧
      (bs.submitVoluntaryExit pool reqE).pool = pool ∧
      (bs.submitVoluntaryExit pool reqE).trace = [Event.headStateFetch]) ∧
    ((bs.listPoolAttesterSlashings pool).failed = true ∧
      (bs.listPoolAttesterSlashings pool).pool = pool ∧
      (bs.listPoolAttesterSlashings pool).trace = [Event.headStateFetch]) ∧
    ((bs.listPoolProposerSlashings pool).failed = true ∧
      (bs.listPoolProposerSlashings pool).pool = pool ∧
      (bs.listPoolProposerSlashings pool).trace = [Event.headStateFetch]) ∧
    ((bs.listPoolVoluntaryExits pool).failed = true ∧
      (bs.listPoolVoluntaryExits pool).pool = pool ∧
      (bs.listPoolVoluntaryExits pool).trace = [Event.headStateFetch]) := by
  simp [Server.submitAttesterSlashing, Server.submitProposerSlashing,
    Server.submitVoluntaryExit, Server.listPoolAttesterSlashings,
    Server.listPoolProposerSlashings, Server.listPoolVoluntaryExits,
    hs, OpOutcome.failed, exceptFailed]

/-- Witness for C2: collaborators whose head-state fetch fails. -/
theorem c2_no_head_state_total_failure_witness :
    failStateServer.headState = Except.error "no head" ∧
    (failStateServer.submitAttesterSlashing emptyPool sampleReqA).failed = true ∧
    (failStateServer.submitVoluntaryExit emptyPool sampleReqE).trace =
      [Event.headStateFetch] ∧
    (failStateServer.listPoolVoluntaryExits emptyPool).trace =
      [Event.headStateFetch] :=
  ⟨rfl,
   (c2_no_head_state_total_failure failStateServer emptyPool "no head"
      sampleReqA sampleReqP sampleReqE rfl).1.1,
   (c2_no_head_state_total_failure failStateServer emptyPool "no head"
      sampleReqA sampleReqP sampleReqE rfl).2.2.1.2.2,
   (c2_no_head_state_total_failure failStateServer emptyPool "no head"
      sampleReqA sampleReqP sampleReqE rfl).2.2.2.2.2.2.2⟩

/-- C1: a Submit whose object the validator rejects returns an error, leaves
the pool untouched, and makes no pool-insertion call and no broadcast call,
on every kind (attester slashing, proposer slashing, voluntary exit). -/
theorem c1_rejection_path (bs : Server) (pool : PoolState) (st : BeaconState)
    (reqA : AttesterSlashing) (reqP : ProposerSlashing)
    (reqE : SignedVoluntaryExit) (v : ValidatorRecord) (eA eP eE : String)
    (hs : bs.headState = .ok st)
    (hA : bs.verifyAttesterSlashing st (bs.v1AttSlashingToV1Alpha1 reqA) =
      .error eA)
    (hP : bs.verifyProposerSlashing st (bs.v1ProposerSlashingToV1Alpha1 reqP) =
      .error eP)
    (hv : st.validatorAtIndexReadOnly reqE.exit.validatorIndex = .ok v)
    (hE : bs.verifyExitAndSignature v st.slot st.fork (bs.v1ExitToV1Alpha1 reqE)
      st.genesisValidatorsRoot = .error eE) :
    ((bs.submitAttesterSlashing pool reqA).failed = true ∧
      (bs.submitAttesterSlashing pool reqA).pool = pool ∧
      (bs.submitAttesterSlashing pool reqA).trace.filter Event.isInsert = [] ∧
      (bs.submitAttesterSlashing pool reqA).trace.filter Event.isBroadcast = []) ∧
    ((bs.submitProposerSlashing pool reqP).failed = true ∧
      (bs.submitProposerSlashing pool reqP).pool = pool ∧
      (bs.submitProposerSlashing pool reqP).trace.filter Event.isInsert = [] ∧
      (bs.submitProposerSlashing pool reqP).trace.filter Event.isBroadcast = []) ∧
    ((bs.submitVoluntaryExit pool reqE).failed = true ∧
      (bs.submitVoluntaryExit pool reqE).pool = pool ∧
      (bs.submitVoluntaryExit pool reqE).trace.filter Event.isInsert = [] ∧
      (bs.submitVoluntaryExit pool reqE).trace.filter Event.isBroadcast = []) := by
  simp [Server.submitAttesterSlashing, Server.submitProposerSlashing,
    Server.submitVoluntaryExit, hs, hA, hP, hv, hE,
    OpOutcome.failed, exceptFailed, List.filter,
    Event.isInsert, Event.isBroadcast]

/-- Witness for C1: collaborators whose validators reject every object. -/
theorem c1_rejection_path_witness :
    rejectAllServer.headState = Except.ok sampleState ∧
    rejectAllServer.verifyAttesterSlashing sampleState
      (rejectAllServer.v1AttSlashingToV1Alpha1 sampleReqA) =
      Except.error "bad att" ∧
    sampleState.validatorAtIndexReadOnly sampleReqE.exit.validatorIndex =
      Except.ok ⟨0⟩ ∧
    (rejectAllServer.submitAttesterSlashing emptyPool sampleReqA).failed = true ∧
    (rejectAllServer.submitVoluntaryExit emptyPool sampleReqE).trace.filter
      Event.isBroadcast = [] :=
  ⟨rfl, rfl, rfl,
   (c1_rejection_path rejectAllServer emptyPool sampleState sampleReqA sampleReqP
      sampleReqE ⟨0⟩ "bad att" "bad prop" "bad exit" rfl rfl rfl rfl rfl).1.1,
   (c1_rejection_path rejectAllServer emptyPool sampleState sampleReqA sampleReqP
      sampleReqE ⟨0⟩ "bad att" "bad prop" "bad exit" rfl rfl rfl rfl rfl).2.2.2.2.2⟩

/-- C3: with `DisableBroadcastSlashings` set, a slashing Submit that passes
validation and pool insertion succeeds with zero broadcast calls (both
slashing kinds); a voluntary-exit Submit that reaches the broadcast step
calls the broadcaster whatever the value of the flag (`b` below ranges over
both settings). -/
theorem c3_broadcast_gating (bs : Server) (pool : PoolState) (b : Bool)
    (st : BeaconState) (reqA : AttesterSlashing) (reqP : ProposerSlashing)
    (reqE : SignedVoluntaryExit) (v : ValidatorRecord)
    (hflag : bs.disableBroadcastSlashings = true)
    (hs : bs.headState = .ok st)
    (hA : bs.verifyAttesterSlashing st (bs.v1AttSlashingToV1Alpha1 reqA) = .ok ())
    (hiA : bs.insertAttesterSlashingOutcome st (bs.v1AttSlashingToV1Alpha1 reqA) =
      .ok ())
    (hP : bs.verifyProposerSlashing st (bs.v1ProposerSlashingToV1Alpha1 reqP) =
      .ok ())
    (hiP : bs.insertProposerSlashingOutcome st
      (bs.v1ProposerSlashingToV1Alpha1 reqP) = .ok ())
    (hv : st.validatorAtIndexReadOnly reqE.exit.validatorIndex = .ok v)
    (hE : bs.verifyExitAndSignature v st.slot st.fork (bs.v1ExitToV1Alpha1 reqE)
      st.genesisValidatorsRoot = .ok ()) :
    ((bs.submitAttesterSlashing pool reqA).result = .ok () ∧
      (bs.submitAttesterSlashing pool reqA).trace.filter Event.isBroadcast = []) ∧
    ((bs.submitProposerSlashing pool reqP).result = .ok () ∧
      (bs.submitProposerSlashing pool reqP).trace.filter Event.isBroadcast = []) ∧
    Event.broadcastCall (.exit reqE) ∈
      ({ bs with disableBroadcastSlashings := b }.submitVoluntaryExit pool
        reqE).trace := by
  refine ⟨?_, ?_, ?_⟩
  · simp [Server.submitAttesterSlashing, hs, hA, hiA, hflag,
      List.filter, Event.isBroadcast]
  · simp [Server.submitProposerSlashing, hs, hP, hiP, hflag,
      List.filter, Event.isBroadcast]
  · rcases hbc : bs.broadcastOutcome (.exit reqE) with e | u <;>
      simp [Server.submitVoluntaryExit, hs, hv, hE, hbc]

/-- Witness for C3: flag-set collaborators for the slashing half; the exit
half is instantiated at both flag values through the same collaborators. -/
theorem c3_broadcast_gating_witness :
    noBroadcastServer.disableBroadcastSlashings = true ∧
    (noBroadcastServer.submitAttesterSlashing emptyPool sampleReqA).result =
      .ok () ∧
    (noBroadcastServer.submitProposerSlashing emptyPool sampleReqP).trace.filter
      Event.isBroadcast = [] ∧
    Event.broadcastCall (.exit sampleReqE) ∈
      ({ noBroadcastServer with disableBroadcastSlashings := false
        }.submitVoluntaryExit emptyPool sampleReqE).trace ∧
    Event.broadcastCall (.exit sampleReqE) ∈
      ({ noBroadcastServer with disableBroadcastSlashings := true
        }.submitVoluntaryExit emptyPool sampleReqE).trace :=
  ⟨rfl,
   (c3_broadcast_gating noBroadcastServer emptyPool false sampleState sampleReqA
      sampleReqP sampleReqE ⟨0⟩ rfl rfl rfl rfl rfl rfl rfl rfl).1.1,
   (c3_broadcast_gating noBroadcastServer emptyPool false sampleState sampleReqA
      sampleReqP sampleReqE ⟨0⟩ rfl rfl rfl rfl rfl rfl rfl rfl).2.1.2,
   (c3_broadcast_gating noBroadcastServer emptyPool false sampleState sampleReqA
      sampleReqP sampleReqE ⟨0⟩ rfl rfl rfl rfl rfl rfl rfl rfl).2.2,
   (c3_broadcast_gating noBroadcastServer emptyPool true sampleState sampleReqA
      sampleReqP sampleReqE ⟨0⟩ rfl rfl rfl rfl rfl rfl rfl rfl).2.2⟩

/-- C8: when validation passed but the slashing-pool insertion fails, the
Submit surfaces an error, attempts no broadcast, leaves the pool untouched,
and the validation call that already happened stays in the trace (nothing is
undone).  For the voluntary-exit kind the insertion cannot fail (see C9), so
the claim is vacuous there. -/
theorem c8_insert_failure_surfaced (bs : Server) (pool : PoolState)
    (st : BeaconState) (reqA : AttesterSlashing) (reqP : ProposerSlashing)
    (eA eP : String)
    (hs : bs.headState = .ok st)
    (hA : bs.verifyAttesterSlashing st (bs.v1AttSlashingToV1Alpha1 reqA) = .ok ())
    (hiA : bs.insertAttesterSlashingOutcome st (bs.v1AttSlashingToV1Alpha1 reqA) =
      .error eA)
    (hP : bs.verifyProposerSlashing st (bs.v1ProposerSlashingToV1Alpha1 reqP) =
      .ok ())
    (hiP : bs.insertProposerSlashingOutcome st
      (bs.v1ProposerSlashingToV1Alpha1 reqP) = .error eP) :
    ((bs.submitAttesterSlashing pool reqA).failed = true ∧
      (bs.submitAttesterSlashing pool reqA).pool = pool ∧
      (bs.submitAttesterSlashing pool reqA).trace =
        [Event.headStateFetch, Event.migrateAttSlashingToAlpha reqA,
          Event.verifyAttSlashing st (bs.v1AttSlashingToV1Alpha1 reqA),
          Event.insertAttSlashing st (bs.v1AttSlashingToV1Alpha1 reqA)]) ∧
    ((bs.submitProposerSlashing pool reqP).failed = true ∧
      (bs.submitProposerSlashing pool reqP).pool = pool ∧
      (bs.submitProposerSlashing pool reqP).trace =
        [Event.headStateFetch, Event.migratePropSlashingToAlpha reqP,
          Event.verifyPropSlashing st (bs.v1ProposerSlashingToV1Alpha1 reqP),
          Event.insertPropSlashing st (bs.v1ProposerSlashingToV1Alpha1 reqP)]) := by
  constructor
  · simp [Server.submitAttesterSlashing, hs, hA, hiA,
      OpOutcome.failed, exceptFailed]
  · simp [Server.submitProposerSlashing, hs, hP, hiP,
      OpOutcome.failed, exceptFailed]

/-- Witness for C8: collaborators whose slashing-pool insertions fail. -/
theorem c8_insert_failure_surfaced_witness :
    insertFailServer.insertAttesterSlashingOutcome sampleState
      (insertFailServer.v1AttSlashingToV1Alpha1 sampleReqA) =
      Except.error "pool full" ∧
    (insertFailServer.submitAttesterSlashing emptyPool sampleReqA).failed =
      true ∧
    (insertFailServer.submitProposerSlashing emptyPool sampleReqP).pool =
      emptyPool :=
  ⟨rfl,
   (c8_insert_failure_surfaced insertFailServer emptyPool sampleState sampleReqA
      sampleReqP "pool full" "pool full" rfl rfl rfl rfl rfl).1.1,
   (c8_insert_failure_surfaced insertFailServer emptyPool sampleState sampleReqA
      sampleReqP "pool full" "pool full" rfl rfl rfl rfl rfl).2.2.1⟩

/-- C5: within one Submit (any kind) whose object reaches validation, the
head state is fetched exactly once, and the one validation call and the one
pool-insertion call in the trace both receive the state `st` returned by that
single fetch (for exits, the slot, fork and genesis validators root passed to
the validator are read off the same `st`). -/
theorem c5_single_snapshot (bs : Server) (pool : PoolState) (st : BeaconState)
    (reqA : AttesterSlashing) (reqP : ProposerSlashing)
    (reqE : SignedVoluntaryExit) (v : ValidatorRecord)
    (hs : bs.headState = .ok st)
    (hA : bs.verifyAttesterSlashing st (bs.v1AttSlashingToV1Alpha1 reqA) = .ok ())
    (hP : bs.verifyProposerSlashing st (bs.v1ProposerSlashingToV1Alpha1 reqP) =
      .ok ())
    (hv : st.validatorAtIndexReadOnly reqE.exit.validatorIndex = .ok v)
    (hE : bs.verifyExitAndSignature v st.slot st.fork (bs.v1ExitToV1Alpha1 reqE)
      st.genesisValidatorsRoot = .ok ()) :
    ((bs.submitAttesterSlashing pool reqA).trace.filter Event.isFetch =
        [Event.headStateFetch] ∧
      (bs.submitAttesterSlashing pool reqA).trace.filter Event.isVerify =
        [Event.verifyAttSlashing st (bs.v1AttSlashingToV1Alpha1 reqA)] ∧
      (bs.submitAttesterSlashing pool reqA).trace.filter Event.isInsert =
        [Event.insertAttSlashing st (bs.v1AttSlashingToV1Alpha1 reqA)]) ∧
    ((bs.submitProposerSlashing pool reqP).trace.filter Event.isFetch =
        [Event.headStateFetch] ∧
      (bs.submitProposerSlashing pool reqP).trace.filter Event.isVerify =
        [Event.verifyPropSlashing st (bs.v1ProposerSlashingToV1Alpha1 reqP)] ∧
      (bs.submitProposerSlashing pool reqP).trace.filter Event.isInsert =
        [Event.insertPropSlashing st (bs.v1ProposerSlashingToV1Alpha1 reqP)]) ∧
    ((bs.submitVoluntaryExit pool reqE).trace.filter Event.isFetch =
        [Event.headStateFetch] ∧
      (bs.submitVoluntaryExit pool reqE).trace.filter Event.isVerify =
        [Event.verifyExit v st.slot st.fork (bs.v1ExitToV1Alpha1 reqE)
          st.genesisValidatorsRoot] ∧
      (bs.submitVoluntaryExit pool reqE).trace.filter Event.isInsert =
        [Event.insertExit st (bs.v1ExitToV1Alpha1 reqE)]) := by
  refine ⟨?_, ?_, ?_⟩
  · rcases hins : bs.insertAttesterSlashingOutcome st
        (bs.v1AttSlashingToV1Alpha1 reqA) with e | u <;>
      rcases hflag : bs.disableBroadcastSlashings with _ | _ <;>
      rcases hbc : bs.broadcastOutcome (WireMsg.attSlashing reqA) with e' | u' <;>
      simp [Server.submitAttesterSlashing, hs, hA, hins, hflag, hbc,
        List.filter, Event.isFetch, Event.isVerify, Event.isInsert]
  · rcases hins : bs.insertProposerSlashingOutcome st
        (bs.v1ProposerSlashingToV1Alpha1 reqP) with e | u <;>
      rcases hflag : bs.disableBroadcastSlashings with _ | _ <;>
      rcases hbc : bs.broadcastOutcome (WireMsg.propSlashing reqP) with e' | u' <;>
      simp [Server.submitProposerSlashing, hs, hP, hins, hflag, hbc,
        List.filter, Event.isFetch, Event.isVerify, Event.isInsert]
  · rcases hbc : bs.broadcastOutcome (WireMsg.exit reqE) with e' | u' <;>
      simp [Server.submitVoluntaryExit, hs, hv, hE, hbc,
        List.filter, Event.isFetch, Event.isVerify, Event.isInsert]

/-- Witness for C5: the all-succeeding collaborators. -/
theorem c5_single_snapshot_witness :
    sampleServer.headState = Except.ok sampleState ∧
    (sampleServer.submitAttesterSlashing emptyPool sampleReqA).trace.filter
      Event.isFetch = [Event.headStateFetch] ∧
    (sampleServer.submitVoluntaryExit emptyPool sampleReqE).trace.filter
      Event.isVerify =
      [Event.verifyExit ⟨0⟩ sampleState.slot sampleState.fork
        (sampleServer.v1ExitToV1Alpha1 sampleReqE)
        sampleState.genesisValidatorsRoot] :=
  ⟨rfl,
   (c5_single_snapshot sampleServer emptyPool sampleState sampleReqA sampleReqP
      sampleReqE ⟨0⟩ rfl rfl rfl rfl rfl).1.1,
   (c5_single_snapshot sampleServer emptyPool sampleState sampleReqA sampleReqP
      sampleReqE ⟨0⟩ rfl rfl rfl rfl rfl).2.2.2.1⟩

/-- C7: a voluntary-exit Submit whose validator-index lookup fails returns an
error, leaves the pool untouched, and its trace stops at the lookup: no
translation, no validation, no insertion, no broadcast. -/
theorem c7_unknown_validator_index (bs : Server) (pool : PoolState)
    (st : BeaconState) (reqE : SignedVoluntaryExit) (e : String)
    (hs : bs.headState = .ok st)
    (hv : st.validatorAtIndexReadOnly reqE.exit.validatorIndex = .error e) :
    (bs.submitVoluntaryExit pool reqE).failed = true ∧
    (bs.submitVoluntaryExit pool reqE).pool = pool ∧
    (bs.submitVoluntaryExit pool reqE).trace =
      [Event.headStateFetch, Event.validatorLookup reqE.exit.validatorIndex] := by
  simp [Server.submitVoluntaryExit, hs, hv, OpOutcome.failed, exceptFailed]

/-- Witness for C7: index 99 against the three-validator sample registry. -/
theorem c7_unknown_validator_index_witness :
    sampleState.validatorAtIndexReadOnly sampleReqBadE.exit.validatorIndex =
      Except.error "index out of range" ∧
    (sampleServer.submitVoluntaryExit emptyPool sampleReqBadE).failed = true ∧
    (sampleServer.submitVoluntaryExit emptyPool sampleReqBadE).trace =
      [Event.headStateFetch, Event.validatorLookup 99] :=
  ⟨rfl,
   (c7_unknown_validator_index sampleServer emptyPool sampleState sampleReqBadE
      "index out of range" rfl rfl).1,
   (c7_unknown_validator_index sampleServer emptyPool sampleState sampleReqBadE
      "index out of range" rfl rfl).2.2⟩

/-- A stored attester slashing is in the pool afterwards. -/
theorem mem_storeAttSlashing (p : PoolState) (s : AttesterSlashingAlpha) :
    s ∈ (p.storeAttSlashing s).attesterSlashings := by
  by_cases h : s ∈ p.attesterSlashings <;> simp [PoolState.storeAttSlashing, h]

/-- A stored proposer slashing is in the pool afterwards. -/
theorem mem_storePropSlashing (p : PoolState) (s : ProposerSlashingAlpha) :
    s ∈ (p.storePropSlashing s).proposerSlashings := by
  by_cases h : s ∈ p.proposerSlashings <;> simp [PoolState.storePropSlashing, h]

/-- A stored voluntary exit is in the pool afterwards. -/
theorem mem_storeExit (p : PoolState) (e : SignedVoluntaryExitAlpha) :
    e ∈ (p.storeExit e).voluntaryExits := by
  by_cases h : e ∈ p.voluntaryExits <;> simp [PoolState.storeExit, h]

/-- C9: a voluntary-exit Submit cannot fail at pool insertion: once the
lookup and the validation succeed, the exit is unconditionally inserted (the
insertion call is in the trace and the translated exit is in the pool), and
the operation fails exactly when the broadcast fails — broadcast is the only
remaining failure point. -/
theorem c9_exit_insert_infallible (bs : Server) (pool : PoolState)
    (st : BeaconState) (reqE : SignedVoluntaryExit) (v : ValidatorRecord)
    (hs : bs.headState = .ok st)
    (hv : st.validatorAtIndexReadOnly reqE.exit.validatorIndex = .ok v)
    (hE : bs.verifyExitAndSignature v st.slot st.fork (bs.v1ExitToV1Alpha1 reqE)
      st.genesisValidatorsRoot = .ok ()) :
    Event.insertExit st (bs.v1ExitToV1Alpha1 reqE) ∈
      (bs.submitVoluntaryExit pool reqE).trace ∧
    bs.v1ExitToV1Alpha1 reqE ∈
      (bs.submitVoluntaryExit pool reqE).pool.voluntaryExits ∧
    (bs.submitVoluntaryExit pool reqE).failed =
      exceptFailed (bs.broadcastOutcome (WireMsg.exit reqE)) := by
  rcases hbc : bs.broadcastOutcome (WireMsg.exit reqE) with e | u <;>
    refine ⟨?_, ?_, ?_⟩ <;>
    simp [Server.submitVoluntaryExit, hs, hv, hE, hbc, OpOutcome.failed,
      exceptFailed, mem_storeExit]

/-- Witness for C9: the all-succeeding collaborators, where the Submit
succeeds, and the broadcast-failing collaborators, where it fails. -/
theorem c9_exit_insert_infallible_witness :
    sampleServer.verifyExitAndSignature ⟨0⟩ sampleState.slot sampleState.fork
      (sampleServer.v1ExitToV1Alpha1 sampleReqE)
      sampleState.genesisValidatorsRoot = Except.ok () ∧
    sampleServer.v1ExitToV1Alpha1 sampleReqE ∈
      (sampleServer.submitVoluntaryExit emptyPool sampleReqE).pool.voluntaryExits ∧
    (sampleServer.submitVoluntaryExit emptyPool sampleReqE).failed =
      exceptFailed (sampleServer.broadcastOutcome (WireMsg.exit sampleReqE)) ∧
    (broadcastFailServer.submitVoluntaryExit emptyPool sampleReqE).failed =
      exceptFailed (broadcastFailServer.broadcastOutcome (WireMsg.exit sampleReqE)) :=
  ⟨rfl,
   (c9_exit_insert_infallible sampleServer emptyPool sampleState sampleReqE ⟨0⟩
      rfl rfl rfl).2.1,
   (c9_exit_insert_infallible sampleServer emptyPool sampleState sampleReqE ⟨0⟩
      rfl rfl rfl).2.2,
   (c9_exit_insert_infallible broadcastFailServer emptyPool sampleState
      sampleReqE ⟨0⟩ rfl rfl rfl).2.2⟩

/-- C10: on every kind, the object handed to the pool-insertion call is the
v1alpha1 translation of the wire request, while the object handed to the
broadcaster is the original wire request unchanged; the translated object
ends up in the pool. -/
theorem c10_pool_gets_alpha_broadcast_gets_wire (bs : Server) (pool : PoolState)
    (st : BeaconState) (reqA : AttesterSlashing) (reqP : ProposerSlashing)
    (reqE : SignedVoluntaryExit) (v : ValidatorRecord)
    (hflag : bs.disableBroadcastSlashings = false)
    (hs : bs.headState = .ok st)
    (hA : bs.verifyAttesterSlashing st (bs.v1AttSlashingToV1Alpha1 reqA) = .ok ())
    (hiA : bs.insertAttesterSlashingOutcome st (bs.v1AttSlashingToV1Alpha1 reqA) =
      .ok ())
    (hP : bs.verifyProposerSlashing st (bs.v1ProposerSlashingToV1Alpha1 reqP) =
      .ok ())
    (hiP : bs.insertProposerSlashingOutcome st
      (bs.v1ProposerSlashingToV1Alpha1 reqP) = .ok ())
    (hv : st.validatorAtIndexReadOnly reqE.exit.validatorIndex = .ok v)
    (hE : bs.verifyExitAndSignature v st.slot st.fork (bs.v1ExitToV1Alpha1 reqE)
      st.genesisValidatorsRoot = .ok ()) :
    (Event.insertAttSlashing st (bs.v1AttSlashingToV1Alpha1 reqA) ∈
        (bs.submitAttesterSlashing pool reqA).trace ∧
      Event.broadcastCall (WireMsg.attSlashing reqA) ∈
        (bs.submitAttesterSlashing pool reqA).trace ∧
      bs.v1AttSlashingToV1Alpha1 reqA ∈
        (bs.submitAttesterSlashing pool reqA).pool.attesterSlashings) ∧
    (Event.insertPropSlashing st (bs.v1ProposerSlashingToV1Alpha1 reqP) ∈
        (bs.submitProposerSlashing pool reqP).trace ∧
      Event.broadcastCall (WireMsg.propSlashing reqP) ∈
        (bs.submitProposerSlashing pool reqP).trace ∧
      bs.v1ProposerSlashingToV1Alpha1 reqP ∈
        (bs.submitProposerSlashing pool reqP).pool.proposerSlashings) ∧
    (Event.insertExit st (bs.v1ExitToV1Alpha1 reqE) ∈
        (bs.submitVoluntaryExit pool reqE).trace ∧
      Event.broadcastCall (WireMsg.exit reqE) ∈
        (bs.submitVoluntaryExit pool reqE).trace ∧
      bs.v1ExitToV1Alpha1 reqE ∈
        (bs.submitVoluntaryExit pool reqE).pool.voluntaryExits) := by
  refine ⟨?_, ?_, ?_⟩
  · rcases hbc : bs.broadcastOutcome (WireMsg.attSlashing reqA) with e | u <;>
      simp [Server.submitAttesterSlashing, hs, hA, hiA, hflag, hbc,
        mem_storeAttSlashing]
  · rcases hbc : bs.broadcastOutcome (WireMsg.propSlashing reqP) with e | u <;>
      simp [Server.submitProposerSlashing, hs, hP, hiP, hflag, hbc,
        mem_storePropSlashing]
  · rcases hbc : bs.broadcastOutcome (WireMsg.exit reqE) with e | u <;>
      simp [Server.submitVoluntaryExit, hs, hv, hE, hbc, mem_storeExit]

/-- Witness for C10: the all-succeeding collaborators. -/
theorem c10_pool_gets_alpha_broadcast_gets_wire_witness :
    sampleServer.disableBroadcastSlashings = false ∧
    Event.broadcastCall (WireMsg.attSlashing sampleReqA) ∈
      (sampleServer.submitAttesterSlashing emptyPool sampleReqA).trace ∧
    sampleServer.v1AttSlashingToV1Alpha1 sampleReqA ∈
      (sampleServer.submitAttesterSlashing emptyPool
        sampleReqA).pool.attesterSlashings ∧
    Event.insertExit sampleState (sampleServer.v1ExitToV1Alpha1 sampleReqE) ∈
      (sampleServer.submitVoluntaryExit emptyPool sampleReqE).trace :=
  ⟨rfl,
   (c10_pool_gets_alpha_broadcast_gets_wire sampleServer emptyPool sampleState
      sampleReqA sampleReqP sampleReqE ⟨0⟩ rfl rfl rfl rfl rfl rfl rfl rfl).1.2.1,
   (c10_pool_gets_alpha_broadcast_gets_wire sampleServer emptyPool sampleState
      sampleReqA sampleReqP sampleReqE ⟨0⟩ rfl rfl rfl rfl rfl rfl rfl rfl).1.2.2,
   (c10_pool_gets_alpha_broadcast_gets_wire sampleServer emptyPool sampleState
      sampleReqA sampleReqP sampleReqE ⟨0⟩ rfl rfl rfl rfl rfl rfl rfl rfl).2.2.1⟩

/-- C6: when the head-state fetch succeeds, each List returns a `Data`
envelope that is exactly the pool's unbounded pending listing with each
element translated to the wire format in order, mutates nothing, and makes
only the fetch and the unbounded (`unlimited = true`) pending query — no
validation and no insertion call. -/
theorem c6_list_is_translated_pending (bs : Server) (pool : PoolState)
    (st : BeaconState) (hs : bs.headState = .ok st) :
    ((bs.listPoolAttesterSlashings pool).result =
        .ok ⟨(pool.pendingAttesterSlashings st true).map
          bs.v1Alpha1AttSlashingToV1⟩ ∧
      (bs.listPoolAttesterSlashings pool).pool = pool ∧
      (bs.listPoolAttesterSlashings pool).trace =
        [Event.headStateFetch, Event.pendingAttSlashings st true]) ∧
    ((bs.listPoolProposerSlashings pool).result =
        .ok ⟨(pool.pendingProposerSlashings st true).map
          bs.v1Alpha1ProposerSlashingToV1⟩ ∧
      (bs.listPoolProposerSlashings pool).pool = pool ∧
      (bs.listPoolProposerSlashings pool).trace =
        [Event.headStateFetch, Event.pendingPropSlashings st true]) ∧
    ((bs.listPoolVoluntaryExits pool).result =
        .ok ⟨(pool.pendingExits st st.slot true).map bs.v1Alpha1ExitToV1⟩ ∧
      (bs.listPoolVoluntaryExits pool).pool = pool ∧
      (bs.listPoolVoluntaryExits pool).trace =
        [Event.headStateFetch, Event.pendingExits st st.slot true]) := by
  simp [Server.listPoolAttesterSlashings, Server.listPoolProposerSlashings,
    Server.listPoolVoluntaryExits, hs]

/-- Witness for C6: a non-empty sample pool; the envelopes evaluate to the
translated pool contents in order. -/
theorem c6_list_is_translated_pending_witness :
    sampleServer.headState = Except.ok sampleState ∧
    (sampleServer.listPoolAttesterSlashings samplePool).result =
      .ok ⟨[⟨20⟩, ⟨21⟩]⟩ ∧
    (sampleServer.listPoolVoluntaryExits samplePool).trace =
      [Event.headStateFetch,
        Event.pendingExits sampleState sampleState.slot true] :=
  ⟨rfl,
   (c6_list_is_translated_pending sampleServer samplePool sampleState rfl).1.1,
   (c6_list_is_translated_pending sampleServer samplePool sampleState rfl).2.2.2.2⟩

/-- In the attester-slashing Submit trace, the broadcast call is preceded by
the pool-insertion call. -/
theorem insertPrecedesBroadcast_attTrace (r : AttesterSlashing)
    (st : BeaconState) (a : AttesterSlashingAlpha) :
    insertPrecedesBroadcast [Event.headStateFetch,
      Event.migrateAttSlashingToAlpha r, Event.verifyAttSlashing st a,
      Event.insertAttSlashing st a,
      Event.broadcastCall (WireMsg.attSlashing r)] := by
  intro i hbr
  fin_cases i <;> simp [List.get, Event.isBroadcast] at hbr
  exact ⟨⟨3, by norm_num⟩, by norm_num, by simp [List.get, Event.isInsert]⟩

/-- In the proposer-slashing Submit trace, the broadcast call is preceded by
the pool-insertion call. -/
theorem insertPrecedesBroadcast_propTrace (r : ProposerSlashing)
    (st : BeaconState) (a : ProposerSlashingAlpha) :
    insertPrecedesBroadcast [Event.headStateFetch,
      Event.migratePropSlashingToAlpha r, Event.verifyPropSlashing st a,
      Event.insertPropSlashing st a,
      Event.broadcastCall (WireMsg.propSlashing r)] := by
  intro i hbr
  fin_cases i <;> simp [List.get, Event.isBroadcast] at hbr
  exact ⟨⟨3, by norm_num⟩, by norm_num, by simp [List.get, Event.isInsert]⟩

/-- In the voluntary-exit Submit trace, the broadcast call is preceded by the
pool-insertion call. -/
theorem insertPrecedesBroadcast_exitTrace (r : SignedVoluntaryExit)
    (st : BeaconState) (v : ValidatorRecord) (a : SignedVoluntaryExitAlpha) :
    insertPrecedesBroadcast [Event.headStateFetch,
      Event.validatorLookup r.exit.validatorIndex, Event.migrateExitToAlpha r,
      Event.verifyExit v st.slot st.fork a st.genesisValidatorsRoot,
      Event.insertExit st a, Event.broadcastCall (WireMsg.exit r)] := by
  intro i hbr
  fin_cases i <;> simp [List.get, Event.isBroadcast] at hbr
  exact ⟨⟨4, by norm_num⟩, by norm_num, by simp [List.get, Event.isInsert]⟩

/-- A trace in which no event is a broadcast call trivially has every
broadcast call preceded by an insertion call. -/
theorem insertPrecedesBroadcast_of_no_broadcast (tr : List Event)
    (h : ∀ ev ∈ tr, ev.isBroadcast = false) :
    insertPrecedesBroadcast tr := by
  intro i hbr
  have hf := h (tr.get i) (tr.get_mem i.1 i.2)
  rw [hf] at hbr
  simp at hbr

/-- Every execution of the attester-slashing Submit — whatever the fetch,
validation, insertion, flag and broadcast outcomes — inserts into the pool
before any broadcast call. -/
theorem submitAttesterSlashing_insertPrecedesBroadcast (bs : Server)
    (pool : PoolState) (r : AttesterSlashing) :
    insertPrecedesBroadcast (bs.submitAttesterSlashing pool r).trace := by
  rcases hs : bs.headState with e | st
  · simp [Server.submitAttesterSlashing, hs]
    exact insertPrecedesBroadcast_of_no_broadcast _ (by simp [Event.isBroadcast])
  · rcases hA : bs.verifyAttesterSlashing st (bs.v1AttSlashingToV1Alpha1 r) with e | u
    · simp [Server.submitAttesterSlashing, hs, hA]
      exact insertPrecedesBroadcast_of_no_broadcast _ (by simp [Event.isBroadcast])
    · rcases hiA : bs.insertAttesterSlashingOutcome st
          (bs.v1AttSlashingToV1Alpha1 r) with e | u
      · simp [Server.submitAttesterSlashing, hs, hA, hiA]
        exact insertPrecedesBroadcast_of_no_broadcast _ (by simp [Event.isBroadcast])
      · rcases hflag : bs.disableBroadcastSlashings with _ | _
        · rcases hbc : bs.broadcastOutcome (WireMsg.attSlashing r) with e | u <;>
            simp [Server.submitAttesterSlashing, hs, hA, hiA, hflag, hbc] <;>
            exact insertPrecedesBroadcast_attTrace r st (bs.v1AttSlashingToV1Alpha1 r)
        · simp [Server.submitAttesterSlashing, hs, hA, hiA, hflag]
          exact insertPrecedesBroadcast_of_no_broadcast _ (by simp [Event.isBroadcast])

/-- Every execution of the proposer-slashing Submit inserts into the pool
before any broadcast call. -/
theorem submitProposerSlashing_insertPrecedesBroadcast (bs : Server)
    (pool : PoolState) (r : ProposerSlashing) :
    insertPrecedesBroadcast (bs.submitProposerSlashing pool r).trace := by
  rcases hs : bs.headState with e | st
  · simp [Server.submitProposerSlashing, hs]
    exact insertPrecedesBroadcast_of_no_broadcast _ (by simp [Event.isBroadcast])
  · rcases hP : bs.verifyProposerSlashing st (bs.v1ProposerSlashingToV1Alpha1 r) with e | u
    · simp [Server.submitProposerSlashing, hs, hP]
      exact insertPrecedesBroadcast_of_no_broadcast _ (by simp [Event.isBroadcast])
    · rcases hiP : bs.insertProposerSlashingOutcome st
          (bs.v1ProposerSlashingToV1Alpha1 r) with e | u
      · simp [Server.submitProposerSlashing, hs, hP, hiP]
        exact insertPrecedesBroadcast_of_no_broadcast _ (by simp [Event.isBroadcast])
      · rcases hflag : bs.disableBroadcastSlashings with _ | _
        · rcases hbc : bs.broadcastOutcome (WireMsg.propSlashing r) with e | u <;>
            simp [Server.submitProposerSlashing, hs, hP, hiP, hflag, hbc] <;>
            exact insertPrecedesBroadcast_propTrace r st
              (bs.v1ProposerSlashingToV1Alpha1 r)
        · simp [Server.submitProposerSlashing, hs, hP, hiP, hflag]
          exact insertPrecedesBroadcast_of_no_broadcast _ (by simp [Event.isBroadcast])

/-- Every execution of the voluntary-exit Submit inserts into the pool before
any broadcast call. -/
theorem submitVoluntaryExit_insertPrecedesBroadcast (bs : Server)
    (pool : PoolState) (r : SignedVoluntaryExit) :
    insertPrecedesBroadcast (bs.submitVoluntaryExit pool r).trace := by
  rcases hs : bs.headState with e | st
  · simp [Server.submitVoluntaryExit, hs]
    exact insertPrecedesBroadcast_of_no_broadcast _ (by simp [Event.isBroadcast])
  · rcases hv : st.validatorAtIndexReadOnly r.exit.validatorIndex with e | v
    · simp [Server.submitVoluntaryExit, hs, hv]
      exact insertPrecedesBroadcast_of_no_broadcast _ (by simp [Event.isBroadcast])
    · rcases hE : bs.verifyExitAndSignature v st.slot st.fork
          (bs.v1ExitToV1Alpha1 r) st.genesisValidatorsRoot with e | u
      · simp [Server.submitVoluntaryExit, hs, hv, hE]
        exact insertPrecedesBroadcast_of_no_broadcast _ (by simp [Event.isBroadcast])
      · rcases hbc : bs.broadcastOutcome (WireMsg.exit r) with e | u <;>
          simp [Server.submitVoluntaryExit, hs, hv, hE, hbc] <;>
          exact insertPrecedesBroadcast_exitTrace r st v (bs.v1ExitToV1Alpha1 r)

/-- C4: on every kind, every Submit execution — broadcast succeeding, failing
or skipped — has its pool-insertion call before any broadcast call (`bs0`,
`pool0` and the three requests range over arbitrary executions); and when the
broadcast call fails after a successful admission, the Submit returns an
error while the translated object is still in the pool afterwards, and a
subsequent List over that pool still returns an envelope containing its wire
translation. -/
theorem c4_admission_before_broadcast (bs0 : Server) (pool0 : PoolState)
    (reqA0 : AttesterSlashing) (reqP0 : ProposerSlashing)
    (reqE0 : SignedVoluntaryExit) (bs : Server) (pool : PoolState)
    (st : BeaconState) (reqA : AttesterSlashing) (reqP : ProposerSlashing)
    (reqE : SignedVoluntaryExit) (v : ValidatorRecord) (ebA ebP ebE : String)
    (hflag : bs.disableBroadcastSlashings = false)
    (hs : bs.headState = .ok st)
    (hA : bs.verifyAttesterSlashing st (bs.v1AttSlashingToV1Alpha1 reqA) = .ok ())
    (hiA : bs.insertAttesterSlashingOutcome st (bs.v1AttSlashingToV1Alpha1 reqA) =
      .ok ())
    (hbA : bs.broadcastOutcome (WireMsg.attSlashing reqA) = .error ebA)
    (hP : bs.verifyProposerSlashing st (bs.v1ProposerSlashingToV1Alpha1 reqP) =
      .ok ())
    (hiP : bs.insertProposerSlashingOutcome st
      (bs.v1ProposerSlashingToV1Alpha1 reqP) = .ok ())
    (hbP : bs.broadcastOutcome (WireMsg.propSlashing reqP) = .error ebP)
    (hv : st.validatorAtIndexReadOnly reqE.exit.validatorIndex = .ok v)
    (hE : bs.verifyExitAndSignature v st.slot st.fork (bs.v1ExitToV1Alpha1 reqE)
      st.genesisValidatorsRoot = .ok ())
    (hbE : bs.broadcastOutcome (WireMsg.exit reqE) = .error ebE) :
    (insertPrecedesBroadcast (bs0.submitAttesterSlashing pool0 reqA0).trace ∧
      insertPrecedesBroadcast (bs0.submitProposerSlashing pool0 reqP0).trace ∧
      insertPrecedesBroadcast (bs0.submitVoluntaryExit pool0 reqE0).trace) ∧
    ((bs.submitAttesterSlashing pool reqA).failed = true ∧
      bs.v1AttSlashingToV1Alpha1 reqA ∈
        (bs.submitAttesterSlashing pool reqA).pool.attesterSlashings ∧
      (bs.listPoolAttesterSlashings
          (bs.submitAttesterSlashing pool reqA).pool).result =
        .ok ⟨((bs.submitAttesterSlashing pool reqA).pool.attesterSlashings).map
          bs.v1Alpha1AttSlashingToV1⟩ ∧
      bs.v1Alpha1AttSlashingToV1 (bs.v1AttSlashingToV1Alpha1 reqA) ∈
        ((bs.submitAttesterSlashing pool reqA).pool.attesterSlashings).map
          bs.v1Alpha1AttSlashingToV1) ∧
    ((bs.submitProposerSlashing pool reqP).failed = true ∧
      bs.v1ProposerSlashingToV1Alpha1 reqP ∈
        (bs.submitProposerSlashing pool reqP).pool.proposerSlashings ∧
      (bs.listPoolProposerSlashings
          (bs.submitProposerSlashing pool reqP).pool).result =
        .ok ⟨((bs.submitProposerSlashing pool reqP).pool.proposerSlashings).map
          bs.v1Alpha1ProposerSlashingToV1⟩ ∧
      bs.v1Alpha1ProposerSlashingToV1 (bs.v1ProposerSlashingToV1Alpha1 reqP) ∈
        ((bs.submitProposerSlashing pool reqP).pool.proposerSlashings).map
          bs.v1Alpha1ProposerSlashingToV1) ∧
    ((bs.submitVoluntaryExit pool reqE).failed = true ∧
      bs.v1ExitToV1Alpha1 reqE ∈
        (bs.submitVoluntaryExit pool reqE).pool.voluntaryExits ∧
      (bs.listPoolVoluntaryExits (bs.submitVoluntaryExit pool reqE).pool).result =
        .ok ⟨((bs.submitVoluntaryExit pool reqE).pool.voluntaryExits).map
          bs.v1Alpha1ExitToV1⟩ ∧
      bs.v1Alpha1ExitToV1 (bs.v1ExitToV1Alpha1 reqE) ∈
        ((bs.submitVoluntaryExit pool reqE).pool.voluntaryExits).map
          bs.v1Alpha1ExitToV1) := by
  have hpoolA : (bs.submitAttesterSlashing pool reqA).pool =
      pool.storeAttSlashing (bs.v1AttSlashingToV1Alpha1 reqA) := by
    simp [Server.submitAttesterSlashing, hs, hA, hiA, hflag, hbA]
  have hpoolP : (bs.submitProposerSlashing pool reqP).pool =
      pool.storePropSlashing (bs.v1ProposerSlashingToV1Alpha1 reqP) := by
    simp [Server.submitProposerSlashing, hs, hP, hiP, hflag, hbP]
  have hpoolE : (bs.submitVoluntaryExit pool reqE).pool =
      pool.storeExit (bs.v1ExitToV1Alpha1 reqE) := by
    simp [Server.submitVoluntaryExit, hs, hv, hE, hbE]
  refine ⟨⟨?_, ?_, ?_⟩, ⟨?_, ?_, ?_, ?_⟩, ⟨?_, ?_, ?_, ?_⟩, ⟨?_, ?_, ?_, ?_⟩⟩
  · exact submitAttesterSlashing_insertPrecedesBroadcast bs0 pool0 reqA0
  · exact submitProposerSlashing_insertPrecedesBroadcast bs0 pool0 reqP0
  · exact submitVoluntaryExit_insertPrecedesBroadcast bs0 pool0 reqE0
  · simp [Server.submitAttesterSlashing, hs, hA, hiA, hflag, hbA,
      OpOutcome.failed, exceptFailed]
  · rw [hpoolA]
    exact mem_storeAttSlashing pool (bs.v1AttSlashingToV1Alpha1 reqA)
  · simp [Server.listPoolAttesterSlashings, hs, PoolState.pendingAttesterSlashings]
  · have hm := mem_storeAttSlashing pool (bs.v1AttSlashingToV1Alpha1 reqA)
    rw [hpoolA]
    exact List.mem_map_of_mem bs.v1Alpha1AttSlashingToV1 hm
  · simp [Server.submitProposerSlashing, hs, hP, hiP, hflag, hbP,
      OpOutcome.failed, exceptFailed]
  · rw [hpoolP]
    exact mem_storePropSlashing pool (bs.v1ProposerSlashingToV1Alpha1 reqP)
  · simp [Server.listPoolProposerSlashings, hs, PoolState.pendingProposerSlashings]
  · have hm := mem_storePropSlashing pool (bs.v1ProposerSlashingToV1Alpha1 reqP)
    rw [hpoolP]
    exact List.mem_map_of_mem bs.v1Alpha1ProposerSlashingToV1 hm
  · simp [Server.submitVoluntaryExit, hs, hv, hE, hbE,
      OpOutcome.failed, exceptFailed]
  · rw [hpoolE]
    exact mem_storeExit pool (bs.v1ExitToV1Alpha1 reqE)
  · simp [Server.listPoolVoluntaryExits, hs, PoolState.pendingExits]
  · have hm := mem_storeExit pool (bs.v1ExitToV1Alpha1 reqE)
    rw [hpoolE]
    exact List.mem_map_of_mem bs.v1Alpha1ExitToV1 hm

/-- Witness for C4: the ordering part is instantiated at the all-succeeding
collaborators (a broadcast-success execution); the retention part at
collaborators whose broadcaster fails. -/
theorem c4_admission_before_broadcast_witness :
    insertPrecedesBroadcast
      (sampleServer.submitAttesterSlashing emptyPool sampleReqA).trace ∧
    insertPrecedesBroadcast
      (sampleServer.submitVoluntaryExit emptyPool sampleReqE).trace ∧
    broadcastFailServer.broadcastOutcome (WireMsg.attSlashing sampleReqA) =
      Except.error "gossip down" ∧
    (broadcastFailServer.submitAttesterSlashing emptyPool sampleReqA).failed =
      true ∧
    broadcastFailServer.v1AttSlashingToV1Alpha1 sampleReqA ∈
      (broadcastFailServer.submitAttesterSlashing emptyPool
        sampleReqA).pool.attesterSlashings ∧
    broadcastFailServer.v1Alpha1ExitToV1
        (broadcastFailServer.v1ExitToV1Alpha1 sampleReqE) ∈
      ((broadcastFailServer.submitVoluntaryExit emptyPool
        sampleReqE).pool.voluntaryExits).map broadcastFailServer.v1Alpha1ExitToV1 :=
  ⟨(c4_admission_before_broadcast sampleServer emptyPool sampleReqA sampleReqP
      sampleReqE broadcastFailServer emptyPool sampleState sampleReqA sampleReqP
      sampleReqE ⟨0⟩ "gossip down" "gossip down" "gossip down"
      rfl rfl rfl rfl rfl rfl rfl rfl rfl rfl rfl).1.1,
   (c4_admission_before_broadcast sampleServer emptyPool sampleReqA sampleReqP
      sampleReqE broadcastFailServer emptyPool sampleState sampleReqA sampleReqP
      sampleReqE ⟨0⟩ "gossip down" "gossip down" "gossip down"
      rfl rfl rfl rfl rfl rfl rfl rfl rfl rfl rfl).1.2.2,
   rfl,
   (c4_admission_before_broadcast sampleServer emptyPool sampleReqA sampleReqP
      sampleReqE broadcastFailServer emptyPool sampleState sampleReqA sampleReqP
      sampleReqE ⟨0⟩ "gossip down" "gossip down" "gossip down"
      rfl rfl rfl rfl rfl rfl rfl rfl rfl rfl rfl).2.1.1,
   (c4_admission_before_broadcast sampleServer emptyPool sampleReqA sampleReqP
      sampleReqE broadcastFailServer emptyPool sampleState sampleReqA sampleReqP
      sampleReqE ⟨0⟩ "gossip down" "gossip down" "gossip down"
      rfl rfl rfl rfl rfl rfl rfl rfl rfl rfl rfl).2.1.2.1,
   (c4_admission_before_broadcast sampleServer emptyPool sampleReqA sampleReqP
      sampleReqE broadcastFailServer emptyPool sampleState sampleReqA sampleReqP
      sampleReqE ⟨0⟩ "gossip down" "gossip down" "gossip down"
      rfl rfl rfl rfl rfl rfl rfl rfl rfl rfl rfl).2.2.2.2.2.2⟩

end Beaconv1
